import Mathlib

/-!
Verification of the CodeBuddy room synchronization engine.

Shallow embedding of the socket handler (src/unnamed/part_006) and the
RoomState persistence model (src/unnamed/part_005).  JavaScript Map objects
are modelled as insertion-ordered association lists (mapGet / mapSet /
mapDelete below reproduce Map.get / Map.set / Map.delete, where Map.set on a
fresh key appends at the end, so list order is registration order).  The
MongoDB update operators used by the source are modelled on a concrete
document structure: positional "$set" updates the first matching array
element, "$pull" removes every matching element, and "$push with $each and
$slice negative n" appends and keeps the last n entries.
-/

namespace CodeBuddy

abbrev RoomId := String
abbrev SocketId := String

/-- Map.get: first binding for the key, none when absent. -/
def mapGet {α β : Type} [DecidableEq α] : List (α × β) → α → Option β
  | [], _ => none
  | (k, v) :: m, k2 => if k = k2 then some v else mapGet m k2

/-- Map.set: replace the existing binding in place, else append at the end. -/
def mapSet {α β : Type} [DecidableEq α] : List (α × β) → α → β → List (α × β)
  | [], k, v => [(k, v)]
  | (k2, v2) :: m, k, v => if k2 = k then (k, v) :: m else (k2, v2) :: mapSet m k v

/-- Map.delete: remove the binding for the key, preserving the other bindings. -/
def mapDelete {α β : Type} [DecidableEq α] : List (α × β) → α → List (α × β)
  | [], _ => []
  | (k2, v2) :: m, k => if k2 = k then mapDelete m k else (k2, v2) :: mapDelete m k

/-! ### RoomState document (src/unnamed/part_005)

The editorSettings and canvasSettings sub-documents and the version and
timestamp metadata are not referenced by any claim and are omitted. -/

/-- Entry of roomStateSchema.codeFiles. -/
structure CodeFile where
  id : String
  filename : String
  language : String
  content : String
  groupId : Option String
  lastModified : Nat
deriving DecidableEq

/-- Entry of roomStateSchema.tabGroups. -/
structure TabGroup where
  id : String
  name : String
  color : String
  collapsed : Bool
deriving DecidableEq

/-- The fabricJSON Mixed payload; individual objects are kept opaque. -/
structure FabricScene where
  objects : List String
  background : String
deriving DecidableEq

/-- Entry of roomStateSchema.canvasFiles. -/
structure CanvasFile where
  id : String
  name : String
  fabricJSON : FabricScene
  createdAt : Nat
deriving DecidableEq

/-- Entry of roomStateSchema.chatMessages. -/
structure ChatMessage where
  id : String
  userId : String
  username : String
  message : String
  timestamp : Nat
deriving DecidableEq

/-- Entry of roomStateSchema.terminalHistory. -/
structure TerminalEntry where
  id : String
  filename : String
  language : String
  output : String
  error : String
  exitCode : Int
  executionTime : Nat
  timestamp : String
deriving DecidableEq

/-- The durable RoomState document. -/
structure RoomStateDoc where
  roomId : String
  codeFiles : List CodeFile
  activeCodeFileId : Option String
  tabGroups : List TabGroup
  canvasFiles : List CanvasFile
  activeCanvasFileId : Option String
  terminalHistory : List TerminalEntry
  chatMessages : List ChatMessage
deriving DecidableEq

/-- roomStateSchema.statics.getOrCreate default document.  The source calls
Date.now() several times while building it; those calls are modelled by the
single parameter now. -/
def defaultRoomState (roomId : String) (now : Nat) : RoomStateDoc :=
  { roomId := roomId
  , codeFiles := [{ id := toString now, filename := "main.py", language := "python"
                  , content := "# Welcome to CodeBuddy!\n# Start coding here...\n\nprint(\"Hello, World!\")\n"
                  , groupId := none, lastModified := now }]
  , activeCodeFileId := some (toString now)
  , tabGroups := []
  , canvasFiles := [{ id := toString now ++ "-canvas", name := "Untitled Canvas"
                    , fabricJSON := { objects := [], background := "transparent" }
                    , createdAt := now }]
  , activeCanvasFileId := some (toString now ++ "-canvas")
  , terminalHistory := []
  , chatMessages := [] }

/-- roomStateSchema.statics.getOrCreate: return the stored document when one
exists for the room, otherwise create the default document. -/
def getOrCreate (stored : Option RoomStateDoc) (roomId : String) (now : Nat) : RoomStateDoc :=
  match stored with
  | some doc => doc
  | none => defaultRoomState roomId now

/-- MongoDB push with each and a negative slice bound: append, keep last cap. -/
def pushCapped {α : Type} (cap : Nat) (log : List α) (e : α) : List α :=
  (log ++ [e]).drop ((log ++ [e]).length - cap)

/-- Positional update (the MongoDB dollar operator): rewrite the first
element satisfying the query, leave the document unchanged when none does. -/
def updateFirst {α : Type} (p : α → Bool) (f : α → α) : List α → List α
  | [] => []
  | a :: as => if p a then f a :: as else a :: updateFirst p f as

/-- The database writes issued by the socket handlers of part_006. -/
inductive DbUpdate
  | setFileContent (fid content : String) (now : Nat)
  | pushCodeFile (f : CodeFile)
  | pullCodeFile (fid : String)
  | setFileName (fid nm : String) (now : Nat)
  | pushTabGroup (g : TabGroup)
  | pullTabGroup (gid : String)
  | pushCanvasFile (c : CanvasFile)
  | setCanvasScene (cid : String) (scene : FabricScene)
  | pushChatCapped (m : ChatMessage)
  | pushTerminalCapped (t : TerminalEntry)
deriving DecidableEq

/-- Effect of each findOneAndUpdate call on the RoomState document. -/
def applyDb (doc : RoomStateDoc) : DbUpdate → RoomStateDoc
  | .setFileContent fid content now =>
      let f2 := updateFirst (fun f => f.id == fid) (fun f => { f with content := content, lastModified := now }) doc.codeFiles
      { doc with codeFiles := f2 }
  | .pushCodeFile f => { doc with codeFiles := doc.codeFiles ++ [f] }
  | .pullCodeFile fid => { doc with codeFiles := doc.codeFiles.filter (fun f => f.id != fid) }
  | .setFileName fid nm now =>
      let f2 := updateFirst (fun f => f.id == fid) (fun f => { f with filename := nm, lastModified := now }) doc.codeFiles
      { doc with codeFiles := f2 }
  | .pushTabGroup g => { doc with tabGroups := doc.tabGroups ++ [g] }
  | .pullTabGroup gid => { doc with tabGroups := doc.tabGroups.filter (fun g => g.id != gid) }
  | .pushCanvasFile c => { doc with canvasFiles := doc.canvasFiles ++ [c] }
  | .setCanvasScene cid scene =>
      let c2 := updateFirst (fun c => c.id == cid) (fun c => { c with fabricJSON := scene }) doc.canvasFiles
      { doc with canvasFiles := c2 }
  | .pushChatCapped m => { doc with chatMessages := pushCapped 100 doc.chatMessages m }
  | .pushTerminalCapped t => { doc with terminalHistory := pushCapped 50 doc.terminalHistory t }

/-! ### Ephemeral server state and socket handlers (src/unnamed/part_006) -/

/-- Value stored in the per-room user Map on join. -/
structure UserInfo where
  id : String
  username : String
  isGuest : Bool
  socketId : SocketId
deriving DecidableEq

/-- The three module-level registries of part_006: roomUsers, roomHosts and
roomSettings.  A roomSettings value is its chatDisabled flag. -/
structure Srv where
  roomUsers : List (RoomId × List (SocketId × UserInfo))
  roomHosts : List (RoomId × SocketId)
  roomSettings : List (RoomId × Bool)
deriving DecidableEq

/-- Destination of a socket emission: socket.emit or io.to(socketId) target a
single socket, socket.to(roomId) reaches every room member except the sender,
io.to(roomId) reaches every room member. -/
inductive Target
  | socket (sid : SocketId)
  | roomExcept (rid : RoomId) (sender : SocketId)
  | roomAll (rid : RoomId)
deriving DecidableEq

/-- Emission payloads, modelled only where a claim depends on their content. -/
inductive Payload
  | mk0
  | errMsg (m : String)
  | chat (m : ChatMessage)
  | roomStatePayload (codeFiles : List CodeFile) (canvasFiles : List CanvasFile)
      (chatMessages : List ChatMessage) (terminalHistory : List TerminalEntry)
      (activeCodeFileId : Option String) (activeCanvasFileId : Option String)
      (users : List UserInfo) (hostSocketId : Option SocketId) (chatDisabled : Bool)
deriving DecidableEq

/-- One emit call. -/
structure Emission where
  target : Target
  event : String
  payload : Payload
deriving DecidableEq

/-- Connections that actually receive an emission, given the sockets currently
joined to the room. -/
def recipients (members : List SocketId) : Target → List SocketId
  | .socket sid => [sid]
  | .roomExcept _ sender => members.filter (fun m => m != sender)
  | .roomAll _ => members

/-- The join-room handler.  stored is the database fetch result consumed by
RoomState.getOrCreate and now its clock; the emitted room-state payload
mirrors the literal sent by the source (note: it carries no tabGroups). -/
def joinRoom (s : Srv) (stored : Option RoomStateDoc) (now : Nat) (rid : RoomId)
    (sid : SocketId) (uid uname : String) (isGuest : Bool) : Srv × List Emission :=
  let u : UserInfo := { id := uid, username := uname, isGuest := isGuest, socketId := sid }
  let users1 := mapSet ((mapGet s.roomUsers rid).getD []) sid u
  let roomUsers1 := mapSet s.roomUsers rid users1
  let roomHosts1 := if (mapGet s.roomHosts rid).isNone then mapSet s.roomHosts rid sid else s.roomHosts
  let roomSettings1 := if (mapGet s.roomSettings rid).isNone then mapSet s.roomSettings rid false else s.roomSettings
  let doc := getOrCreate stored rid now
  let pl := Payload.roomStatePayload doc.codeFiles doc.canvasFiles doc.chatMessages
      doc.terminalHistory doc.activeCodeFileId doc.activeCanvasFileId
      (users1.map Prod.snd) (mapGet roomHosts1 rid) ((mapGet roomSettings1 rid).getD false)
  ({ roomUsers := roomUsers1, roomHosts := roomHosts1, roomSettings := roomSettings1 },
   [{ target := Target.socket sid, event := "room-state", payload := pl },
    { target := Target.roomExcept rid sid, event := "user-joined", payload := Payload.mk0 }])

/-- handleLeaveRoom of part_006.  rid? is socket.roomId (none after the socket
already left).  When the departing socket held host status the first remaining
user in registration order becomes host; when the room empties, its
roomUsers, roomHosts and roomSettings entries are all deleted. -/
def handleLeaveRoom (s : Srv) (rid? : Option RoomId) (sid : SocketId) : Srv × List Emission :=
  match rid? with
  | none => (s, [])
  | some rid =>
    if (mapGet s.roomUsers rid).isSome then
      let users0 := (mapGet s.roomUsers rid).getD []
      let users := mapDelete users0 sid
      let he : List (RoomId × SocketId) × List Emission :=
        if mapGet s.roomHosts rid = some sid then
          match users.head? with
          | some u => (mapSet s.roomHosts rid u.1,
              [{ target := Target.roomAll rid, event := "host-changed", payload := Payload.mk0 }])
          | none => (s.roomHosts, [])
        else (s.roomHosts, [])
      let emits := he.2 ++ [{ target := Target.roomExcept rid sid, event := "user-left", payload := Payload.mk0 }]
      if users = [] then
        ({ roomUsers := mapDelete s.roomUsers rid, roomHosts := mapDelete he.1 rid,
           roomSettings := mapDelete s.roomSettings rid }, emits)
      else
        ({ roomUsers := mapSet s.roomUsers rid users, roomHosts := he.1,
           roomSettings := s.roomSettings }, emits)
    else (s, [])

/-- The isHost helper gating every privileged handler. -/
def isHost (s : Srv) (rid? : Option RoomId) (sid : SocketId) : Bool :=
  match rid? with
  | none => false
  | some rid => mapGet s.roomHosts rid == some sid

/-! ### Write coalescer (debouncedSave of part_006) -/

/-- The saveTimers and pendingSaves module maps.  A timer value is the
remaining delay of the scheduled setTimeout in milliseconds. -/
structure SaveState where
  saveTimers : List (RoomId × Nat)
  pendingSaves : List (RoomId × List (String × String))
deriving DecidableEq

/-- debouncedSave: clear the existing timer for the room, record the pending
file content (replacing any pending value for the same file id) and schedule a
fresh 2000 ms timer. -/
def debouncedSave (st : SaveState) (rid : RoomId) (fid? content? : Option String) : SaveState :=
  let pending :=
    match fid?, content? with
    | some fid, some content =>
        mapSet st.pendingSaves rid (mapSet ((mapGet st.pendingSaves rid).getD []) fid content)
    | _, _ => st.pendingSaves
  { pendingSaves := pending, saveTimers := mapSet st.saveTimers rid 2000 }

/-- Body of the 2-second timer callback inside debouncedSave.  errAt models
whether one of the awaited database writes throws: errAt of some k means the
write for the k-th pending file raised, so only the first k writes were
performed, the catch block logs, and pendingSaves keeps its entry (the delete
of pendingSaves only runs after the whole loop).  Returns the new state, the
writes durably performed, and the emissions sent to clients (always none). -/
def flushTimer (st : SaveState) (rid : RoomId) (errAt : Option Nat) :
    SaveState × List (String × String) × List Emission :=
  let files := (mapGet st.pendingSaves rid).getD []
  match errAt with
  | none =>
      ({ saveTimers := mapDelete st.saveTimers rid,
         pendingSaves := if files = [] then st.pendingSaves else mapDelete st.pendingSaves rid },
       files, [])
  | some k =>
      ({ saveTimers := mapDelete st.saveTimers rid, pendingSaves := st.pendingSaves },
       files.take k, [])

/-! ### Broadcast handlers.  Each takes socket.roomId (rid?) and the sending
socket, and returns its emissions plus its direct database writes; the
code-change handler routes its write through the coalescer instead. -/

def codeChangeHandler (rid? : Option RoomId) (sender : SocketId) (fid content : String)
    (st : SaveState) : List Emission × SaveState :=
  match rid? with
  | none => ([], st)
  | some rid =>
      ([{ target := Target.roomExcept rid sender, event := "code-change", payload := Payload.mk0 }],
       debouncedSave st rid (some fid) (some content))

def fileCreateHandler (rid? : Option RoomId) (sender : SocketId) (f : CodeFile) :
    List Emission × List DbUpdate :=
  match rid? with
  | none => ([], [])
  | some rid =>
      ([{ target := Target.roomExcept rid sender, event := "file-create", payload := Payload.mk0 }],
       [DbUpdate.pushCodeFile f])

def fileDeleteHandler (rid? : Option RoomId) (sender : SocketId) (fid : String) :
    List Emission × List DbUpdate :=
  match rid? with
  | none => ([], [])
  | some rid =>
      ([{ target := Target.roomExcept rid sender, event := "file-delete", payload := Payload.mk0 }],
       [DbUpdate.pullCodeFile fid])

def fileRenameHandler (rid? : Option RoomId) (sender : SocketId) (fid nm : String) (now : Nat) :
    List Emission × List DbUpdate :=
  match rid? with
  | none => ([], [])
  | some rid =>
      ([{ target := Target.roomExcept rid sender, event := "file-rename", payload := Payload.mk0 }],
       [DbUpdate.setFileName fid nm now])

def tabGroupCreateHandler (rid? : Option RoomId) (sender : SocketId) (g : TabGroup) :
    List Emission × List DbUpdate :=
  match rid? with
  | none => ([], [])
  | some rid =>
      ([{ target := Target.roomExcept rid sender, event := "tab-group-create", payload := Payload.mk0 }],
       [DbUpdate.pushTabGroup g])

def tabGroupUpdateHandler (rid? : Option RoomId) (sender : SocketId) (gid : String) :
    List Emission × List DbUpdate :=
  match rid? with
  | none => ([], [])
  | some rid =>
      ([{ target := Target.roomExcept rid sender, event := "tab-group-update", payload := Payload.mk0 }], [])

def tabGroupDeleteHandler (rid? : Option RoomId) (sender : SocketId) (gid : String) :
    List Emission × List DbUpdate :=
  match rid? with
  | none => ([], [])
  | some rid =>
      ([{ target := Target.roomExcept rid sender, event := "tab-group-delete", payload := Payload.mk0 }],
       [DbUpdate.pullTabGroup gid])

def canvasObjectAddHandler (rid? : Option RoomId) (sender : SocketId) : List Emission :=
  match rid? with
  | none => []
  | some rid =>
      [{ target := Target.roomExcept rid sender, event := "canvas-object-add", payload := Payload.mk0 }]

def canvasObjectModifyHandler (rid? : Option RoomId) (sender : SocketId) : List Emission :=
  match rid? with
  | none => []
  | some rid =>
      [{ target := Target.roomExcept rid sender, event := "canvas-object-modify", payload := Payload.mk0 }]

def canvasObjectDeleteHandler (rid? : Option RoomId) (sender : SocketId) : List Emission :=
  match rid? with
  | none => []
  | some rid =>
      [{ target := Target.roomExcept rid sender, event := "canvas-object-delete", payload := Payload.mk0 }]

def canvasPathCreateHandler (rid? : Option RoomId) (sender : SocketId) : List Emission :=
  match rid? with
  | none => []
  | some rid =>
      [{ target := Target.roomExcept rid sender, event := "canvas-path-create", payload := Payload.mk0 }]

/-- First canvas-full-sync handler (line 428); a second listener for the same
event (line 641) also broadcasts with socket.to, so the no-echo argument is
identical for it. -/
def canvasFullSyncHandler (rid? : Option RoomId) (sender : SocketId)
    (canvasId? : Option String) (fabricJSON? : Option FabricScene) :
    List Emission × List DbUpdate :=
  match rid? with
  | none => ([], [])
  | some rid =>
      ([{ target := Target.roomExcept rid sender, event := "canvas-full-sync", payload := Payload.mk0 }],
       match fabricJSON?, canvasId? with
       | some scene, some cid => [DbUpdate.setCanvasScene cid scene]
       | _, _ => [])

def canvasFileCreateHandler (rid? : Option RoomId) (sender : SocketId) (c : CanvasFile) :
    List Emission × List DbUpdate :=
  match rid? with
  | none => ([], [])
  | some rid =>
      ([{ target := Target.roomExcept rid sender, event := "canvas-file-create", payload := Payload.mk0 }],
       [DbUpdate.pushCanvasFile c])

/-- The chat-message handler.  It reads none of the roomSettings state; the
broadcast uses io.to(roomId), reaching every member including the sender, and
the append is capped at the last 100 messages. -/
def chatMessageHandler (rid? : Option RoomId) (sender : SocketId)
    (uid uname msg mid : String) (ts : Nat) : List Emission × List DbUpdate :=
  match rid? with
  | none => ([], [])
  | some rid =>
      let m : ChatMessage := { id := mid, userId := uid, username := uname, message := msg, timestamp := ts }
      ([{ target := Target.roomAll rid, event := "chat-message", payload := Payload.chat m }],
       [DbUpdate.pushChatCapped m])

def terminalOutputHandler (rid? : Option RoomId) (sender : SocketId) (entry : TerminalEntry) :
    List Emission × List DbUpdate :=
  match rid? with
  | none => ([], [])
  | some rid =>
      ([{ target := Target.roomExcept rid sender, event := "terminal-output", payload := Payload.mk0 }],
       [DbUpdate.pushTerminalCapped entry])

/-! ### Host controls (part_006 lines 789-931).  Every handler first checks
isHost and answers a non-host caller with a single host-error emission to the
caller alone, leaving all state untouched. -/

/-- host-kick-user.  targetSock models io.sockets.sockets.get(targetSocketId):
none when no such socket is connected, otherwise that sockets roomId. -/
def hostKickUser (s : Srv) (rid? : Option RoomId) (caller target : SocketId)
    (targetSock : Option (Option RoomId)) : Srv × List Emission :=
  if isHost s rid? caller then
    match rid? with
    | none => (s, [])
    | some rid =>
      match targetSock with
      | some trid? =>
        if trid? = some rid then
          let r := handleLeaveRoom s trid? target
          (r.1, { target := Target.socket target, event := "you-were-kicked", payload := Payload.mk0 } :: r.2)
        else (s, [])
      | none => (s, [])
  else (s, [{ target := Target.socket caller, event := "host-error",
              payload := Payload.errMsg "Only the host can kick users" }])

/-- host-mute-user: notifies the target and broadcasts a forced voice-mute;
no registry changes. -/
def hostMuteUser (s : Srv) (rid? : Option RoomId) (caller target : SocketId) :
    Srv × List Emission :=
  if isHost s rid? caller then
    match rid? with
    | none => (s, [])
    | some rid =>
      (s, [{ target := Target.socket target, event := "you-were-muted", payload := Payload.mk0 },
           { target := Target.roomAll rid, event := "voice-mute", payload := Payload.mk0 }])
  else (s, [{ target := Target.socket caller, event := "host-error",
              payload := Payload.errMsg "Only the host can mute users" }])

/-- host-transfer: only when the target is a registered member of the room. -/
def hostTransfer (s : Srv) (rid? : Option RoomId) (caller target : SocketId) :
    Srv × List Emission :=
  if isHost s rid? caller then
    match rid? with
    | none => (s, [])
    | some rid =>
      match mapGet s.roomUsers rid with
      | some users =>
        if (mapGet users target).isSome then
          ({ s with roomHosts := mapSet s.roomHosts rid target },
           [{ target := Target.roomAll rid, event := "host-changed", payload := Payload.mk0 }])
        else (s, [])
      | none => (s, [])
  else (s, [{ target := Target.socket caller, event := "host-error",
              payload := Payload.errMsg "Only the host can transfer host role" }])

/-- host-toggle-chat: flips the chatDisabled flag (when the settings entry
exists) and broadcasts chat-toggled to the whole room. -/
def hostToggleChat (s : Srv) (rid? : Option RoomId) (caller : SocketId) (disabled : Bool) :
    Srv × List Emission :=
  if isHost s rid? caller then
    match rid? with
    | none => (s, [])
    | some rid =>
      let settings1 := if (mapGet s.roomSettings rid).isSome
                       then mapSet s.roomSettings rid disabled else s.roomSettings
      ({ s with roomSettings := settings1 },
       [{ target := Target.roomAll rid, event := "chat-toggled", payload := Payload.mk0 }])
  else (s, [{ target := Target.socket caller, event := "host-error",
              payload := Payload.errMsg "Only the host can toggle chat" }])

/-- host-end-session: broadcasts session-ended, forces handleLeaveRoom for
every member of the room, then deletes the three room registries. -/
def hostEndSession (s : Srv) (rid? : Option RoomId) (caller : SocketId) :
    Srv × List Emission :=
  if isHost s rid? caller then
    match rid? with
    | none => (s, [])
    | some rid =>
      let ids := ((mapGet s.roomUsers rid).getD []).map Prod.fst
      let start : Srv × List Emission :=
        (s, [{ target := Target.roomAll rid, event := "session-ended", payload := Payload.mk0 }])
      let stepped := ids.foldl (fun acc sid =>
        let r := handleLeaveRoom acc.1 (some rid) sid
        (r.1, acc.2 ++ r.2)) start
      ({ roomUsers := mapDelete stepped.1.roomUsers rid,
         roomHosts := mapDelete stepped.1.roomHosts rid,
         roomSettings := mapDelete stepped.1.roomSettings rid }, stepped.2)
  else (s, [{ target := Target.socket caller, event := "host-error",
              payload := Payload.errMsg "Only the host can end the session" }])

/-! ### Voice presence (global.voiceRooms, part_006 lines 530-606) -/

/-- Entry of a rooms voice set. -/
structure VoicePeer where
  peerId : String
  socketId : SocketId
  isMuted : Bool
  username : String
deriving DecidableEq

/-- The global.voiceRooms registry. -/
structure VoiceState where
  voiceRooms : List (RoomId × List VoicePeer)
deriving DecidableEq

/-- voice-join handler (line 538): replies with the current participants,
appends the peer when not already present, and broadcasts voice-join to the
whole room including the sender. -/
def voiceJoin (vs : VoiceState) (rid? voiceRoomId? : Option RoomId) (sid : SocketId)
    (peerId uname : String) : VoiceState × List Emission :=
  match rid?.orElse (fun _ => voiceRoomId?) with
  | none => (vs, [])
  | some rid =>
    let room := (mapGet vs.voiceRooms rid).getD []
    let room2 := if room.find? (fun p => p.peerId == peerId) = none
                 then room ++ [{ peerId := peerId, socketId := sid, isMuted := true, username := uname }]
                 else room
    ({ voiceRooms := mapSet vs.voiceRooms rid room2 },
     [{ target := Target.socket sid, event := "voice-participants", payload := Payload.mk0 },
      { target := Target.roomAll rid, event := "voice-join", payload := Payload.mk0 }])

/-- voice-leave handler (line 576): removes the peer entry and broadcasts. -/
def voiceLeave (vs : VoiceState) (rid? : Option RoomId) (peerId : String) :
    VoiceState × List Emission :=
  match rid? with
  | none => (vs, [])
  | some rid =>
    let room := (mapGet vs.voiceRooms rid).getD []
    let room2 := room.filter (fun p => p.peerId != peerId)
    let vs2 := if (mapGet vs.voiceRooms rid).isSome
               then { voiceRooms := mapSet vs.voiceRooms rid room2 } else vs
    (vs2, [{ target := Target.roomAll rid, event := "voice-leave", payload := Payload.mk0 }])

/-- The disconnect handler (line 937).  Its body only calls handleLeaveRoom;
no code path of part_006 removes the disconnecting sockets entry from
global.voiceRooms, so the voice registry is returned unchanged. -/
def disconnectHandler (s : Srv) (vs : VoiceState) (rid? : Option RoomId) (sid : SocketId) :
    (Srv × VoiceState) × List Emission :=
  let r := handleLeaveRoom s rid? sid
  ((r.1, vs), r.2)

/-! ### The host invariant of the presence registries -/

/-- For every room: a non-empty member list has a host assignment pointing at
one of its registered members, and a host assignment only exists for a room
whose member list is present and non-empty. -/
def Inv (s : Srv) : Prop :=
  ∀ rid : RoomId,
    (∀ users, mapGet s.roomUsers rid = some users → users ≠ [] →
        ∃ h, mapGet s.roomHosts rid = some h ∧ h ∈ users.map Prod.fst) ∧
    (∀ h, mapGet s.roomHosts rid = some h →
        ∃ users, mapGet s.roomUsers rid = some users ∧ users ≠ [])

/-! ### Concrete states used by witnesses and counterexamples -/

def uA : UserInfo := { id := "ua", username := "alice", isGuest := false, socketId := "a" }

def uB : UserInfo := { id := "ub", username := "bob", isGuest := false, socketId := "b" }

/-- Room "r" with members a (joined first, host) and b. -/
def srv2 : Srv :=
  { roomUsers := [("r", [("a", uA), ("b", uB)])]
  , roomHosts := [("r", "a")]
  , roomSettings := [("r", false)] }

/-- Room "r" with a as its only member and host. -/
def srv1 : Srv :=
  { roomUsers := [("r", [("a", uA)])]
  , roomHosts := [("r", "a")]
  , roomSettings := [("r", false)] }

def tgG : TabGroup := { id := "g", name := "G", color := "blue", collapsed := false }

def tgK : TabGroup := { id := "k", name := "K", color := "red", collapsed := false }

/-- Room document with one code file referencing group g, and that group. -/
def c5doc : RoomStateDoc :=
  { roomId := "r"
  , codeFiles := [{ id := "f1", filename := "main.py", language := "python", content := "x=1",
                    groupId := some "g", lastModified := 0 }]
  , activeCodeFileId := some "f1"
  , tabGroups := [tgG]
  , canvasFiles := []
  , activeCanvasFileId := none
  , terminalHistory := []
  , chatMessages := [] }

/-- Same document with a second, unrelated group k. -/
def c5doc2 : RoomStateDoc := { c5doc with tabGroups := [tgG, tgK] }

/-- Voice registry after socket a voice-joins room r with peer p1. -/
def vs6 : VoiceState := (voiceJoin { voiceRooms := [] } (some "r") none "a" "p1" "alice").1

def m0 : ChatMessage :=
  { id := "m0", userId := "u", username := "alice", message := "hi", timestamp := 0 }

def t0 : TerminalEntry :=
  { id := "t0", filename := "main.py", language := "python", output := "ok", error := ""
  , exitCode := 0, executionTime := 1, timestamp := "12:00:00" }

/-- Document whose chat log is exactly at the 100 cap and whose terminal log
is exactly at the 50 cap. -/
def doc100 : RoomStateDoc :=
  { c5doc with chatMessages := List.replicate 100 m0, terminalHistory := List.replicate 50 t0 }

/-! ### Lemmas about the Map model -/

theorem mapGet_set_self {α β : Type} [DecidableEq α] (m : List (α × β)) (k : α) (v : β) :
    mapGet (mapSet m k v) k = some v := by
  induction m with
  | nil => simp [mapSet, mapGet]
  | cons p m ih =>
    obtain ⟨k2, v2⟩ := p
    by_cases h : k2 = k
    · subst h; simp [mapSet, mapGet]
    · simp [mapSet, mapGet, h, ih]

theorem mapGet_set_ne {α β : Type} [DecidableEq α] (m : List (α × β)) (k k2 : α) (v : β)
    (h : k2 ≠ k) : mapGet (mapSet m k v) k2 = mapGet m k2 := by
  induction m with
  | nil => simp [mapSet, mapGet, Ne.symm h]
  | cons p m ih =>
    obtain ⟨k3, v3⟩ := p
    by_cases h3 : k3 = k
    · subst h3
      simp [mapSet, mapGet, Ne.symm h]
    · simp only [mapSet, if_neg h3, mapGet]
      rw [ih]

theorem mapGet_delete_self {α β : Type} [DecidableEq α] (m : List (α × β)) (k : α) :
    mapGet (mapDelete m k) k = none := by
  induction m with
  | nil => simp [mapDelete, mapGet]
  | cons p m ih =>
    obtain ⟨k2, v2⟩ := p
    by_cases h : k2 = k
    · simp [mapDelete, h, ih]
    · simp [mapDelete, mapGet, h, ih]

theorem mapGet_delete_ne {α β : Type} [DecidableEq α] (m : List (α × β)) (k k2 : α)
    (h : k2 ≠ k) : mapGet (mapDelete m k) k2 = mapGet m k2 := by
  induction m with
  | nil => simp [mapDelete]
  | cons p m ih =>
    obtain ⟨k3, v3⟩ := p
    by_cases h3 : k3 = k
    · subst h3
      simp [mapDelete, mapGet, Ne.symm h, ih]
    · simp only [mapDelete, if_neg h3, mapGet]
      rw [ih]

theorem mapSet_ne_nil {α β : Type} [DecidableEq α] (m : List (α × β)) (k : α) (v : β) :
    mapSet m k v ≠ [] := by
  cases m with
  | nil => simp [mapSet]
  | cons p m =>
    obtain ⟨k2, v2⟩ := p
    by_cases h : k2 = k <;> simp [mapSet, h]

theorem mem_keys_mapSet_self {α β : Type} [DecidableEq α] (m : List (α × β)) (k : α) (v : β) :
    k ∈ (mapSet m k v).map Prod.fst := by
  induction m with
  | nil => simp [mapSet]
  | cons p m ih =>
    obtain ⟨k2, v2⟩ := p
    by_cases h : k2 = k <;> simp [mapSet, h, ih]

theorem mem_keys_mapSet_of_mem {α β : Type} [DecidableEq α] (m : List (α × β)) (k a : α)
    (v : β) (ha : a ∈ m.map Prod.fst) : a ∈ (mapSet m k v).map Prod.fst := by
  induction m with
  | nil => simp at ha
  | cons p m ih =>
    obtain ⟨k2, v2⟩ := p
    simp only [List.map_cons, List.mem_cons] at ha
    by_cases h : k2 = k
    · subst h
      rcases ha with ha | ha
      · subst ha; simp [mapSet]
      · simp [mapSet, ha]
    · rcases ha with ha | ha
      · subst ha; simp [mapSet, h]
      · simp [mapSet, h, ih ha]

theorem mem_keys_mapDelete {α β : Type} [DecidableEq α] (m : List (α × β)) (k a : α)
    (ha : a ∈ m.map Prod.fst) (hk : a ≠ k) : a ∈ (mapDelete m k).map Prod.fst := by
  induction m with
  | nil => simp at ha
  | cons p m ih =>
    obtain ⟨k2, v2⟩ := p
    simp only [List.map_cons, List.mem_cons] at ha
    by_cases h : k2 = k
    · subst h
      rcases ha with ha | ha
      · exact absurd ha hk
      · simp [mapDelete, ih ha]
    · rcases ha with ha | ha
      · subst ha; simp [mapDelete, h]
      · simp [mapDelete, h]
        right
        simpa using ih ha

theorem mapDelete_nil_of_nil {α β : Type} [DecidableEq α] (k : α) :
    mapDelete ([] : List (α × β)) k = [] := rfl

theorem head_mem_keys {α β : Type} (u : α × β) (l : List (α × β)) :
    u.1 ∈ ((u :: l).map Prod.fst) := by simp

/-! ### Unfolding lemmas for handleLeaveRoom -/

theorem handleLeaveRoom_none (s : Srv) (sid : SocketId) :
    handleLeaveRoom s none sid = (s, []) := rfl

theorem handleLeaveRoom_no_room (s : Srv) (rid : RoomId) (sid : SocketId)
    (hU : mapGet s.roomUsers rid = none) :
    handleLeaveRoom s (some rid) sid = (s, []) := by
  simp [handleLeaveRoom, hU]

theorem handleLeaveRoom_empty (s : Srv) (rid : RoomId) (sid : SocketId)
    (users0 : List (SocketId × UserInfo))
    (hU : mapGet s.roomUsers rid = some users0) (hD : mapDelete users0 sid = []) :
    handleLeaveRoom s (some rid) sid =
      ({ roomUsers := mapDelete s.roomUsers rid, roomHosts := mapDelete s.roomHosts rid,
         roomSettings := mapDelete s.roomSettings rid },
       [{ target := Target.roomExcept rid sid, event := "user-left", payload := Payload.mk0 }]) := by
  simp [handleLeaveRoom, hU, hD]

theorem handleLeaveRoom_host (s : Srv) (rid : RoomId) (sid : SocketId)
    (users0 : List (SocketId × UserInfo)) (u : SocketId × UserInfo)
    (rest : List (SocketId × UserInfo))
    (hU : mapGet s.roomUsers rid = some users0)
    (hHost : mapGet s.roomHosts rid = some sid)
    (hD : mapDelete users0 sid = u :: rest) :
    handleLeaveRoom s (some rid) sid =
      ({ roomUsers := mapSet s.roomUsers rid (u :: rest),
         roomHosts := mapSet s.roomHosts rid u.1,
         roomSettings := s.roomSettings },
       [{ target := Target.roomAll rid, event := "host-changed", payload := Payload.mk0 },
        { target := Target.roomExcept rid sid, event := "user-left", payload := Payload.mk0 }]) := by
  simp [handleLeaveRoom, hU, hD, hHost]

theorem handleLeaveRoom_nonhost (s : Srv) (rid : RoomId) (sid : SocketId)
    (users0 : List (SocketId × UserInfo)) (u : SocketId × UserInfo)
    (rest : List (SocketId × UserInfo))
    (hU : mapGet s.roomUsers rid = some users0)
    (hHost : ¬ mapGet s.roomHosts rid = some sid)
    (hD : mapDelete users0 sid = u :: rest) :
    handleLeaveRoom s (some rid) sid =
      ({ roomUsers := mapSet s.roomUsers rid (u :: rest),
         roomHosts := s.roomHosts,
         roomSettings := s.roomSettings },
       [{ target := Target.roomExcept rid sid, event := "user-left", payload := Payload.mk0 }]) := by
  simp [handleLeaveRoom, hU, hD, hHost]

/-! ### Host invariant preservation -/

theorem Inv_empty : Inv { roomUsers := [], roomHosts := [], roomSettings := [] } := by
  intro rid
  constructor
  · intro users hu
    simp [mapGet] at hu
  · intro h hh
    simp [mapGet] at hh

theorem join_preserves_inv (s : Srv) (stored : Option RoomStateDoc) (now : Nat)
    (rid : RoomId) (sid : SocketId) (uid uname : String) (g : Bool) (hs : Inv s) :
    Inv (joinRoom s stored now rid sid uid uname g).1 := by
  have hU : (joinRoom s stored now rid sid uid uname g).1.roomUsers
      = mapSet s.roomUsers rid (mapSet ((mapGet s.roomUsers rid).getD []) sid
          { id := uid, username := uname, isGuest := g, socketId := sid }) := rfl
  have hH : (joinRoom s stored now rid sid uid uname g).1.roomHosts
      = (if (mapGet s.roomHosts rid).isNone then mapSet s.roomHosts rid sid else s.roomHosts) := rfl
  intro rid2
  constructor
  · intro users hu hne
    by_cases hr : rid2 = rid
    · subst hr
      rw [hU, mapGet_set_self] at hu
      injection hu with hu
      rw [hH]
      cases hOpt : mapGet s.roomHosts rid2 with
      | none =>
        refine ⟨sid, ?_, ?_⟩
        · simp [hOpt, mapGet_set_self]
        · rw [← hu]
          exact mem_keys_mapSet_self ..
      | some h0 =>
        refine ⟨h0, ?_, ?_⟩
        · simp [hOpt]
        · obtain ⟨users0, hu0, hne0⟩ := (hs rid2).2 h0 hOpt
          obtain ⟨h1, hh1, hm1⟩ := (hs rid2).1 users0 hu0 hne0
          have he : h1 = h0 := by
            rw [hOpt] at hh1
            injection hh1 with hh1
            exact hh1.symm
          have hg : (mapGet s.roomUsers rid2).getD [] = users0 := by rw [hu0]; rfl
          rw [← hu, hg]
          exact mem_keys_mapSet_of_mem _ _ _ _ (he ▸ hm1)
    · rw [hU, mapGet_set_ne _ _ _ _ hr] at hu
      obtain ⟨h0, hh0, hm0⟩ := (hs rid2).1 users hu hne
      refine ⟨h0, ?_, hm0⟩
      rw [hH]
      by_cases hN : (mapGet s.roomHosts rid).isNone
      · rw [if_pos hN, mapGet_set_ne _ _ _ _ hr]
        exact hh0
      · rw [if_neg hN]
        exact hh0
  · intro h0 hh0
    by_cases hr : rid2 = rid
    · subst hr
      refine ⟨mapSet ((mapGet s.roomUsers rid2).getD []) sid
          { id := uid, username := uname, isGuest := g, socketId := sid }, ?_, ?_⟩
      · rw [hU]
        apply mapGet_set_self
      · apply mapSet_ne_nil
    · rw [hH] at hh0
      have hh1 : mapGet s.roomHosts rid2 = some h0 := by
        by_cases hN : (mapGet s.roomHosts rid).isNone
        · rw [if_pos hN, mapGet_set_ne _ _ _ _ hr] at hh0
          exact hh0
        · rw [if_neg hN] at hh0
          exact hh0
      obtain ⟨users, hu, hne⟩ := (hs rid2).2 h0 hh1
      refine ⟨users, ?_, hne⟩
      rw [hU, mapGet_set_ne _ _ _ _ hr]
      exact hu

theorem leave_preserves_inv (s : Srv) (rid? : Option RoomId) (sid : SocketId) (hs : Inv s) :
    Inv (handleLeaveRoom s rid? sid).1 := by
  cases rid? with
  | none =>
    rw [handleLeaveRoom_none]
    exact hs
  | some rid =>
    cases hU : mapGet s.roomUsers rid with
    | none =>
      rw [handleLeaveRoom_no_room s rid sid hU]
      exact hs
    | some users0 =>
      cases hD : mapDelete users0 sid with
      | nil =>
        rw [handleLeaveRoom_empty s rid sid users0 hU hD]
        intro rid2
        constructor
        · intro users hu hne
          by_cases hr : rid2 = rid
          · subst hr
            rw [mapGet_delete_self] at hu
            cases hu
          · rw [mapGet_delete_ne _ _ _ hr] at hu
            obtain ⟨h0, hh0, hm0⟩ := (hs rid2).1 users hu hne
            refine ⟨h0, ?_, hm0⟩
            rw [mapGet_delete_ne _ _ _ hr]
            exact hh0
        · intro h0 hh0
          by_cases hr : rid2 = rid
          · subst hr
            rw [mapGet_delete_self] at hh0
            cases hh0
          · rw [mapGet_delete_ne _ _ _ hr] at hh0
            obtain ⟨users, hu, hne⟩ := (hs rid2).2 h0 hh0
            refine ⟨users, ?_, hne⟩
            rw [mapGet_delete_ne _ _ _ hr]
            exact hu
      | cons u rest =>
        by_cases hHost : mapGet s.roomHosts rid = some sid
        · rw [handleLeaveRoom_host s rid sid users0 u rest hU hHost hD]
          intro rid2
          constructor
          · intro users hu hne
            by_cases hr : rid2 = rid
            · subst hr
              rw [mapGet_set_self] at hu
              injection hu with hu
              refine ⟨u.1, mapGet_set_self .., ?_⟩
              rw [← hu]
              simp
            · rw [mapGet_set_ne _ _ _ _ hr] at hu
              obtain ⟨h0, hh0, hm0⟩ := (hs rid2).1 users hu hne
              refine ⟨h0, ?_, hm0⟩
              rw [mapGet_set_ne _ _ _ _ hr]
              exact hh0
          · intro h0 hh0
            by_cases hr : rid2 = rid
            · subst hr
              refine ⟨u :: rest, mapGet_set_self .., by simp⟩
            · rw [mapGet_set_ne _ _ _ _ hr] at hh0
              obtain ⟨users, hu, hne⟩ := (hs rid2).2 h0 hh0
              refine ⟨users, ?_, hne⟩
              rw [mapGet_set_ne _ _ _ _ hr]
              exact hu
        · rw [handleLeaveRoom_nonhost s rid sid users0 u rest hU hHost hD]
          intro rid2
          constructor
          · intro users hu hne
            by_cases hr : rid2 = rid
            · subst hr
              rw [mapGet_set_self] at hu
              injection hu with hu
              have hne0 : users0 ≠ [] := by
                intro h
                rw [h] at hD
                simp [mapDelete] at hD
              obtain ⟨h0, hh0, hm0⟩ := (hs rid2).1 users0 hU hne0
              have hno : h0 ≠ sid := by
                intro he
                exact hHost (he ▸ hh0)
              have hmem := mem_keys_mapDelete users0 sid h0 hm0 hno
              rw [hD] at hmem
              refine ⟨h0, hh0, ?_⟩
              rw [← hu]
              exact hmem
            · rw [mapGet_set_ne _ _ _ _ hr] at hu
              exact (hs rid2).1 users hu hne
          · intro h0 hh0
            by_cases hr : rid2 = rid
            · subst hr
              refine ⟨u :: rest, mapGet_set_self .., by simp⟩
            · obtain ⟨users, hu, hne⟩ := (hs rid2).2 h0 hh0
              refine ⟨users, ?_, hne⟩
              rw [mapGet_set_ne _ _ _ _ hr]
              exact hu

theorem Inv_srv2 : Inv srv2 := by
  intro rid
  by_cases hr : rid = "r"
  · subst hr
    constructor
    · intro users hu hne
      have h2 : mapGet srv2.roomUsers "r" = some [("a", uA), ("b", uB)] := by decide
      rw [h2] at hu
      injection hu with hu
      refine ⟨"a", by decide, ?_⟩
      rw [← hu]
      decide
    · intro h hh
      exact ⟨[("a", uA), ("b", uB)], by decide, by decide⟩
  · constructor
    · intro users hu hne
      have h2 : mapGet srv2.roomUsers rid = none := by
        simp [srv2, mapGet, Ne.symm hr]
      rw [h2] at hu
      cases hu
    · intro h hh
      have h2 : mapGet srv2.roomHosts rid = none := by
        simp [srv2, mapGet, Ne.symm hr]
      rw [h2] at hh
      cases hh

/-! ### Claim theorems -/

/-- Claim C1: the host invariant (every room with a registered non-empty
member list has a host assignment pointing at exactly one of its members) is
preserved by the join-room handler and by handleLeaveRoom; when the host of a
room leaves and other members remain, the new host is deterministically the
first remaining entry of the registration-ordered member list (the oldest
surviving connection, since Map.set appends fresh keys at the end and
Map.delete preserves the order of the rest); and when the last member leaves,
the roomUsers, roomHosts and roomSettings entries of the room are all erased.
Host uniqueness is the final conjunct: the host assignment determines a single
connection. -/
theorem C1_host_uniqueness :
    (∀ s stored now rid sid uid uname g, Inv s →
        Inv (joinRoom s stored now rid sid uid uname g).1)
  ∧ (∀ s rid? sid, Inv s → Inv (handleLeaveRoom s rid? sid).1)
  ∧ (∀ (s : Srv) (rid : RoomId) (sid : SocketId) users0 (u : SocketId × UserInfo) rest,
        mapGet s.roomUsers rid = some users0 →
        mapGet s.roomHosts rid = some sid → mapDelete users0 sid = u :: rest →
        mapGet (handleLeaveRoom s (some rid) sid).1.roomHosts rid = some u.1)
  ∧ (∀ (s : Srv) (rid : RoomId) (sid : SocketId) users0,
        mapGet s.roomUsers rid = some users0 →
        mapDelete users0 sid = [] →
        mapGet (handleLeaveRoom s (some rid) sid).1.roomUsers rid = none
        ∧ mapGet (handleLeaveRoom s (some rid) sid).1.roomHosts rid = none
        ∧ mapGet (handleLeaveRoom s (some rid) sid).1.roomSettings rid = none)
  ∧ (∀ (s : Srv) (rid : RoomId) (h1 h2 : SocketId), mapGet s.roomHosts rid = some h1 →
        mapGet s.roomHosts rid = some h2 → h1 = h2) := by
  refine ⟨join_preserves_inv, leave_preserves_inv, ?_, ?_, ?_⟩
  · intro s rid sid users0 u rest hU hHost hD
    rw [handleLeaveRoom_host s rid sid users0 u rest hU hHost hD]
    apply mapGet_set_self
  · intro s rid sid users0 hU hD
    rw [handleLeaveRoom_empty s rid sid users0 hU hD]
    exact ⟨mapGet_delete_self .., mapGet_delete_self .., mapGet_delete_self ..⟩
  · intro s rid h1 h2 hh1 hh2
    rw [hh1] at hh2
    injection hh2

/-- Witness for C1: join into the empty registry preserves the invariant; in
room r of srv2 (members a then b, host a), a leaving re-elects b, the oldest
surviving connection; and a leaving the one-member room srv1 erases all three
registry entries for r. -/
theorem C1_host_uniqueness_witness :
    Inv (joinRoom { roomUsers := [], roomHosts := [], roomSettings := [] }
          none 0 "r" "a" "ua" "alice" false).1
  ∧ Inv (handleLeaveRoom srv2 (some "r") "a").1
  ∧ mapGet (handleLeaveRoom srv2 (some "r") "a").1.roomHosts "r" = some "b"
  ∧ mapGet (handleLeaveRoom srv1 (some "r") "a").1.roomUsers "r" = none :=
  ⟨C1_host_uniqueness.1 _ none 0 "r" "a" "ua" "alice" false Inv_empty,
   C1_host_uniqueness.2.1 srv2 (some "r") "a" Inv_srv2,
   C1_host_uniqueness.2.2.1 srv2 "r" "a" [("a", uA), ("b", uB)] ("b", uB) []
     (by decide) (by decide) (by decide),
   (C1_host_uniqueness.2.2.2.1 srv1 "r" "a" [("a", uA)] (by decide) (by decide)).1⟩

theorem not_mem_recipients_roomExcept (members : List SocketId) (rid : RoomId)
    (sender : SocketId) : sender ∉ recipients members (Target.roomExcept rid sender) := by
  intro hmem
  simp [recipients, List.mem_filter] at hmem

/-- Claim C2 as stated is false on the code: the chat-message handler
broadcasts with io.to(roomId), which reaches every member of the room
including the sender (the source comment even says so).  Concretely, with
members a and b, sender a is among the recipients of its own chat-message
broadcast. -/
theorem C2_chat_echo_counterexample :
    (chatMessageHandler (some "r") "a" "ua" "alice" "hi" "m1" 0).1
      = [{ target := Target.roomAll "r", event := "chat-message",
           payload := Payload.chat { id := "m1", userId := "ua", username := "alice",
                                     message := "hi", timestamp := 0 } }]
  ∧ "a" ∈ recipients ["a", "b"] (Target.roomAll "r") := by
  exact ⟨rfl, by decide⟩

/-- Claim C2 amended: every mutation handler except chat-message forwards the
event with socket.to(roomId), so the sender never receives it back; the
chat-message handler instead delivers to every member of the room, sender
included. -/
theorem C2_no_echo_amended :
    (∀ (rid : RoomId) (sender : SocketId) fid content st (e : Emission),
        e ∈ (codeChangeHandler (some rid) sender fid content st).1 →
        ∀ members, sender ∉ recipients members e.target)
  ∧ (∀ (rid : RoomId) (sender : SocketId) f (e : Emission),
        e ∈ (fileCreateHandler (some rid) sender f).1 →
        ∀ members, sender ∉ recipients members e.target)
  ∧ (∀ (rid : RoomId) (sender : SocketId) fid (e : Emission),
        e ∈ (fileDeleteHandler (some rid) sender fid).1 →
        ∀ members, sender ∉ recipients members e.target)
  ∧ (∀ (rid : RoomId) (sender : SocketId) fid nm now (e : Emission),
        e ∈ (fileRenameHandler (some rid) sender fid nm now).1 →
        ∀ members, sender ∉ recipients members e.target)
  ∧ (∀ (rid : RoomId) (sender : SocketId) g (e : Emission),
        e ∈ (tabGroupCreateHandler (some rid) sender g).1 →
        ∀ members, sender ∉ recipients members e.target)
  ∧ (∀ (rid : RoomId) (sender : SocketId) gid (e : Emission),
        e ∈ (tabGroupUpdateHandler (some rid) sender gid).1 →
        ∀ members, sender ∉ recipients members e.target)
  ∧ (∀ (rid : RoomId) (sender : SocketId) gid (e : Emission),
        e ∈ (tabGroupDeleteHandler (some rid) sender gid).1 →
        ∀ members, sender ∉ recipients members e.target)
  ∧ (∀ (rid : RoomId) (sender : SocketId) (e : Emission),
        e ∈ canvasObjectAddHandler (some rid) sender →
        ∀ members, sender ∉ recipients members e.target)
  ∧ (∀ (rid : RoomId) (sender : SocketId) (e : Emission),
        e ∈ canvasObjectModifyHandler (some rid) sender →
        ∀ members, sender ∉ recipients members e.target)
  ∧ (∀ (rid : RoomId) (sender : SocketId) (e : Emission),
        e ∈ canvasObjectDeleteHandler (some rid) sender →
        ∀ members, sender ∉ recipients members e.target)
  ∧ (∀ (rid : RoomId) (sender : SocketId) (e : Emission),
        e ∈ canvasPathCreateHandler (some rid) sender →
        ∀ members, sender ∉ recipients members e.target)
  ∧ (∀ (rid : RoomId) (sender : SocketId) cid? scene? (e : Emission),
        e ∈ (canvasFullSyncHandler (some rid) sender cid? scene?).1 →
        ∀ members, sender ∉ recipients members e.target)
  ∧ (∀ (rid : RoomId) (sender : SocketId) c (e : Emission),
        e ∈ (canvasFileCreateHandler (some rid) sender c).1 →
        ∀ members, sender ∉ recipients members e.target)
  ∧ (∀ (rid : RoomId) (sender : SocketId) entry (e : Emission),
        e ∈ (terminalOutputHandler (some rid) sender entry).1 →
        ∀ members, sender ∉ recipients members e.target)
  ∧ (∀ (rid : RoomId) (sender : SocketId) uid uname msg mid ts (members : List SocketId),
        (chatMessageHandler (some rid) sender uid uname msg mid ts).1.map
          (fun e => recipients members e.target) = [members]) := by
  refine ⟨?_, ?_, ?_, ?_, ?_, ?_, ?_, ?_, ?_, ?_, ?_, ?_, ?_, ?_, ?_⟩
  · intro rid sender fid content st e he members
    simp [codeChangeHandler] at he
    subst he
    exact not_mem_recipients_roomExcept members rid sender
  · intro rid sender f e he members
    simp [fileCreateHandler] at he
    subst he
    exact not_mem_recipients_roomExcept members rid sender
  · intro rid sender fid e he members
    simp [fileDeleteHandler] at he
    subst he
    exact not_mem_recipients_roomExcept members rid sender
  · intro rid sender fid nm now e he members
    simp [fileRenameHandler] at he
    subst he
    exact not_mem_recipients_roomExcept members rid sender
  · intro rid sender g e he members
    simp [tabGroupCreateHandler] at he
    subst he
    exact not_mem_recipients_roomExcept members rid sender
  · intro rid sender gid e he members
    simp [tabGroupUpdateHandler] at he
    subst he
    exact not_mem_recipients_roomExcept members rid sender
  · intro rid sender gid e he members
    simp [tabGroupDeleteHandler] at he
    subst he
    exact not_mem_recipients_roomExcept members rid sender
  · intro rid sender e he members
    simp [canvasObjectAddHandler] at he
    subst he
    exact not_mem_recipients_roomExcept members rid sender
  · intro rid sender e he members
    simp [canvasObjectModifyHandler] at he
    subst he
    exact not_mem_recipients_roomExcept members rid sender
  · intro rid sender e he members
    simp [canvasObjectDeleteHandler] at he
    subst he
    exact not_mem_recipients_roomExcept members rid sender
  · intro rid sender e he members
    simp [canvasPathCreateHandler] at he
    subst he
    exact not_mem_recipients_roomExcept members rid sender
  · intro rid sender cid? scene? e he members
    simp [canvasFullSyncHandler] at he
    subst he
    exact not_mem_recipients_roomExcept members rid sender
  · intro rid sender c e he members
    simp [canvasFileCreateHandler] at he
    subst he
    exact not_mem_recipients_roomExcept members rid sender
  · intro rid sender entry e he members
    simp [terminalOutputHandler] at he
    subst he
    exact not_mem_recipients_roomExcept members rid sender
  · intro rid sender uid uname msg mid ts members
    simp [chatMessageHandler, recipients]

/-- Witness for C2 amended: the code-change broadcast from a in room r with
members a and b is not delivered back to a, while the chat-message broadcast
is delivered to both members including the sender. -/
theorem C2_no_echo_amended_witness :
    ("a" ∉ recipients ["a", "b"]
        (Emission.target { target := Target.roomExcept "r" "a", event := "code-change",
                           payload := Payload.mk0 }))
  ∧ ((chatMessageHandler (some "r") "a" "ua" "alice" "hi" "m1" 0).1.map
        (fun e => recipients ["a", "b"] e.target) = [["a", "b"]]) :=
  ⟨C2_no_echo_amended.1 "r" "a" "f" "x" { saveTimers := [], pendingSaves := [] }
      { target := Target.roomExcept "r" "a", event := "code-change", payload := Payload.mk0 }
      (by decide) ["a", "b"],
   C2_no_echo_amended.2.2.2.2.2.2.2.2.2.2.2.2.2.2 "r" "a" "ua" "alice" "hi" "m1" 0 ["a", "b"]⟩

/-- After folding successive debouncedSave records for the same file over a
state whose pending map for the room holds exactly that file, the pending map
holds the last recorded content. -/
theorem fold_debouncedSave (rid : RoomId) (f : String) (cs : List String) :
    ∀ (st : SaveState) (c : String),
      mapGet st.pendingSaves rid = some [(f, c)] →
      mapGet ((cs.foldl (fun st c => debouncedSave st rid (some f) (some c)) st).pendingSaves) rid
          = some [(f, cs.getLastD c)]
      ∧ mapGet ((cs.foldl (fun st c => debouncedSave st rid (some f) (some c)) st).saveTimers) rid
          = (cs.foldl (fun acc _ => some 2000) (mapGet st.saveTimers rid)) := by
  induction cs with
  | nil =>
    intro st c h
    exact ⟨by simpa using h, rfl⟩
  | cons v vs ih =>
    intro st c h
    have hstep : mapGet ((debouncedSave st rid (some f) (some v)).pendingSaves) rid
        = some [(f, v)] := by
      have he : (debouncedSave st rid (some f) (some v)).pendingSaves
          = mapSet st.pendingSaves rid (mapSet ((mapGet st.pendingSaves rid).getD []) f v) := rfl
      rw [he, h]
      simp [mapSet, mapGet_set_self]
    have hrec := ih (debouncedSave st rid (some f) (some v)) v hstep
    constructor
    · rw [List.foldl_cons, List.getLastD_cons]
      exact hrec.1
    · rw [List.foldl_cons]
      rw [hrec.2]
      have ht : mapGet ((debouncedSave st rid (some f) (some v)).saveTimers) rid = some 2000 :=
        mapGet_set_self ..
      rw [ht]
      cases vs <;> rfl

/-- Claim C3: recording a value through debouncedSave replaces any pending
value for the same file and (re)schedules the 2000 ms room timer; N
successive edits to the same file recorded within one window produce, at the
timer flush, exactly one durable write for that file whose content is the
last edit, after which the pending entry for the room is cleared. -/
theorem C3_coalescing :
    (∀ (st : SaveState) (rid : RoomId) (f v : String) pending,
        mapGet (debouncedSave st rid (some f) (some v)).pendingSaves rid = some pending →
        mapGet pending f = some v)
  ∧ (∀ (st : SaveState) (rid : RoomId) (fid? content? : Option String),
        mapGet (debouncedSave st rid fid? content?).saveTimers rid = some 2000)
  ∧ (∀ (st0 : SaveState) (rid : RoomId) (f : String) (cs : List String) (hne : cs ≠ []),
        mapGet st0.pendingSaves rid = none →
        (flushTimer (cs.foldl (fun st c => debouncedSave st rid (some f) (some c)) st0)
            rid none).2.1 = [(f, cs.getLast hne)]
        ∧ mapGet (flushTimer (cs.foldl (fun st c => debouncedSave st rid (some f) (some c)) st0)
            rid none).1.pendingSaves rid = none) := by
  refine ⟨?_, ?_, ?_⟩
  · intro st rid f v pending hp
    have he : (debouncedSave st rid (some f) (some v)).pendingSaves
        = mapSet st.pendingSaves rid (mapSet ((mapGet st.pendingSaves rid).getD []) f v) := rfl
    rw [he, mapGet_set_self] at hp
    injection hp with hp
    rw [← hp]
    apply mapGet_set_self
  · intro st rid fid? content?
    apply mapGet_set_self
  · intro st0 rid f cs hne h0
    cases cs with
    | nil => exact absurd rfl hne
    | cons c cs2 =>
      have hstep : mapGet ((debouncedSave st0 rid (some f) (some c)).pendingSaves) rid
          = some [(f, c)] := by
        have he : (debouncedSave st0 rid (some f) (some c)).pendingSaves
            = mapSet st0.pendingSaves rid (mapSet ((mapGet st0.pendingSaves rid).getD []) f c) := rfl
        rw [he, h0]
        simp [mapSet, mapGet_set_self]
      have hrec := (fold_debouncedSave rid f cs2 (debouncedSave st0 rid (some f) (some c)) c hstep).1
      have hfold : mapGet (((c :: cs2).foldl
          (fun st c => debouncedSave st rid (some f) (some c)) st0).pendingSaves) rid
          = some [(f, cs2.getLastD c)] := by
        rw [List.foldl_cons]
        exact hrec
      have hlast : (c :: cs2).getLast hne = cs2.getLastD c := List.getLast_eq_getLastD c cs2 hne
      constructor
      · have hw : (flushTimer ((c :: cs2).foldl
            (fun st c => debouncedSave st rid (some f) (some c)) st0) rid none).2.1
            = ((mapGet (((c :: cs2).foldl (fun st c => debouncedSave st rid (some f) (some c))
                st0).pendingSaves) rid).getD []) := rfl
        rw [hw, hfold, hlast]
        rfl
      · have hp : (flushTimer ((c :: cs2).foldl
            (fun st c => debouncedSave st rid (some f) (some c)) st0) rid none).1.pendingSaves
            = (if ((mapGet (((c :: cs2).foldl (fun st c => debouncedSave st rid (some f)
                  (some c)) st0).pendingSaves) rid).getD []) = []
               then ((c :: cs2).foldl (fun st c => debouncedSave st rid (some f) (some c))
                  st0).pendingSaves
               else mapDelete (((c :: cs2).foldl (fun st c => debouncedSave st rid (some f)
                  (some c)) st0).pendingSaves) rid) := rfl
        rw [hp, hfold]
        simp [mapGet_delete_self]

/-- Witness for C3: three successive edits x, yy, zzz to file f in room r,
starting from the empty coalescer state, flush as the single write (f, zzz),
and recording replaces the pending value and schedules the 2000 ms timer. -/
theorem C3_coalescing_witness :
    mapGet [("f", "zzz")] "f" = some "zzz"
  ∧ mapGet (debouncedSave { saveTimers := [], pendingSaves := [] }
        "r" (some "f") (some "x")).saveTimers "r" = some 2000
  ∧ (flushTimer (["x", "yy", "zzz"].foldl
        (fun st c => debouncedSave st "r" (some "f") (some c))
        { saveTimers := [], pendingSaves := [] }) "r" none).2.1 = [("f", "zzz")] :=
  ⟨C3_coalescing.1 { saveTimers := [], pendingSaves := [] } "r" "f" "zzz"
      [("f", "zzz")] (by decide),
   C3_coalescing.2.1 { saveTimers := [], pendingSaves := [] } "r" (some "f") (some "x"),
   (C3_coalescing.2.2 { saveTimers := [], pendingSaves := [] } "r" "f" ["x", "yy", "zzz"]
      (by decide) (by decide)).1⟩

/-- Claim C4: every privileged handler (kick, mute, transfer, toggle-chat,
end-session) invoked by a caller that is not the host of its room leaves the
whole server state unchanged and produces exactly one host-error emission
whose only recipient is the caller, whatever the room member list is. -/
theorem C4_auth_gate (s : Srv) (rid? : Option RoomId) (caller target : SocketId)
    (targetSock : Option (Option RoomId)) (disabled : Bool)
    (h : isHost s rid? caller = false) :
    hostKickUser s rid? caller target targetSock
      = (s, [{ target := Target.socket caller, event := "host-error",
               payload := Payload.errMsg "Only the host can kick users" }])
  ∧ hostMuteUser s rid? caller target
      = (s, [{ target := Target.socket caller, event := "host-error",
               payload := Payload.errMsg "Only the host can mute users" }])
  ∧ hostTransfer s rid? caller target
      = (s, [{ target := Target.socket caller, event := "host-error",
               payload := Payload.errMsg "Only the host can transfer host role" }])
  ∧ hostToggleChat s rid? caller disabled
      = (s, [{ target := Target.socket caller, event := "host-error",
               payload := Payload.errMsg "Only the host can toggle chat" }])
  ∧ hostEndSession s rid? caller
      = (s, [{ target := Target.socket caller, event := "host-error",
               payload := Payload.errMsg "Only the host can end the session" }])
  ∧ (∀ members : List SocketId, recipients members (Target.socket caller) = [caller]) := by
  refine ⟨?_, ?_, ?_, ?_, ?_, fun members => rfl⟩
  · simp only [hostKickUser, h, Bool.false_eq_true, if_false]
  · simp only [hostMuteUser, h, Bool.false_eq_true, if_false]
  · simp only [hostTransfer, h, Bool.false_eq_true, if_false]
  · simp only [hostToggleChat, h, Bool.false_eq_true, if_false]
  · simp only [hostEndSession, h, Bool.false_eq_true, if_false]

/-- Witness for C4: in srv2 the host of room r is a, so caller b is rejected
by host-toggle-chat and host-kick-user with a single host-error to b and no
state change. -/
theorem C4_auth_gate_witness :
    hostToggleChat srv2 (some "r") "b" true
      = (srv2, [{ target := Target.socket "b", event := "host-error",
                  payload := Payload.errMsg "Only the host can toggle chat" }])
  ∧ hostKickUser srv2 (some "r") "b" "a" (some (some "r"))
      = (srv2, [{ target := Target.socket "b", event := "host-error",
                  payload := Payload.errMsg "Only the host can kick users" }]) :=
  ⟨(C4_auth_gate srv2 (some "r") "b" "a" (some (some "r")) true (by decide)).2.2.2.1,
   (C4_auth_gate srv2 (some "r") "b" "a" (some (some "r")) true (by decide)).1⟩

/-- Claim C5 as stated is false on the code: the tab-group-delete handler
issues a single pull of the group from tabGroups and never touches codeFiles,
so after deleting group g from c5doc the group list is empty while file f1
still carries groupId g, a reference to a group that no longer exists. -/
theorem C5_orphan_counterexample :
    (tabGroupDeleteHandler (some "r") "a" "g").2 = [DbUpdate.pullTabGroup "g"]
  ∧ (applyDb c5doc (DbUpdate.pullTabGroup "g")).tabGroups = []
  ∧ (applyDb c5doc (DbUpdate.pullTabGroup "g")).codeFiles.map CodeFile.groupId
      = [some "g"] :=
  ⟨rfl, by decide, by decide⟩

/-- Claim C5 amended: the structural group-delete operation removes every
tabGroups entry with the deleted id and keeps the other groups, but it leaves
codeFiles entirely unchanged — file group references to the deleted group are
NOT cleared in the same operation (nor anywhere else in the handler). -/
theorem C5_group_delete_amended (doc : RoomStateDoc) (gid : String) :
    (applyDb doc (DbUpdate.pullTabGroup gid)).codeFiles = doc.codeFiles
  ∧ gid ∉ (applyDb doc (DbUpdate.pullTabGroup gid)).tabGroups.map TabGroup.id
  ∧ (∀ g ∈ doc.tabGroups, g.id ≠ gid →
        g ∈ (applyDb doc (DbUpdate.pullTabGroup gid)).tabGroups) := by
  refine ⟨rfl, ?_, ?_⟩
  · intro hmem
    simp [applyDb, List.mem_map, List.mem_filter] at hmem
    obtain ⟨g, ⟨hg, hne⟩, heq⟩ := hmem
    exact hne heq
  · intro g hg hne
    simp [applyDb, List.mem_filter, hg, hne]

/-- Witness for C5 amended at c5doc2: deleting g keeps the files unchanged,
removes g from the group ids, and the unrelated group k survives. -/
theorem C5_group_delete_amended_witness :
    (applyDb c5doc2 (DbUpdate.pullTabGroup "g")).codeFiles = c5doc2.codeFiles
  ∧ "g" ∉ (applyDb c5doc2 (DbUpdate.pullTabGroup "g")).tabGroups.map TabGroup.id
  ∧ tgK ∈ (applyDb c5doc2 (DbUpdate.pullTabGroup "g")).tabGroups :=
  ⟨(C5_group_delete_amended c5doc2 "g").1,
   (C5_group_delete_amended c5doc2 "g").2.1,
   (C5_group_delete_amended c5doc2 "g").2.2 tgK (by decide) (by decide)⟩

/-- Claim C6 states the spec guarantee, and the source comment at the
voice-join handler ("Store voice peer ID on socket for cleanup") shows the
same intent, but the code never implements it: the disconnect handler only
calls handleLeaveRoom, which touches the roomUsers, roomHosts and
roomSettings registries and nothing else, so a voice entry is never removed
by its sockets disconnect.  Evaluated at the failing input: socket a with
peer p1 voice-joins room r and then disconnects (without voice-leave); its
entry is still in the rooms voice set afterwards, and in general the
disconnect handler returns the voice registry unchanged. -/
theorem C6_voice_entry_survives_disconnect :
    mapGet vs6.voiceRooms "r"
      = some [{ peerId := "p1", socketId := "a", isMuted := true, username := "alice" }]
  ∧ (∀ (s : Srv) (vs : VoiceState) (rid? : Option RoomId) (sid : SocketId),
        (disconnectHandler s vs rid? sid).1.2 = vs)
  ∧ mapGet (disconnectHandler srv1 vs6 (some "r") "a").1.2.voiceRooms "r"
      = some [{ peerId := "p1", socketId := "a", isMuted := true, username := "alice" }] :=
  ⟨by decide, fun s vs rid? sid => rfl, by decide⟩

theorem pushCapped_length {α : Type} (cap : Nat) (log : List α) (e : α) :
    (pushCapped cap log e).length = min (log.length + 1) cap := by
  simp [pushCapped]
  omega

theorem pushCapped_at_cap {α : Type} (cap : Nat) (log : List α) (e : α)
    (h : log.length = cap) (hpos : 0 < cap) :
    pushCapped cap log e = log.tail ++ [e] := by
  cases log with
  | nil =>
    simp only [List.length_nil] at h
    omega
  | cons a l =>
    have hh : l.length + 1 = cap := by simpa using h
    show List.drop (((a :: l) ++ [e]).length - cap) ((a :: l) ++ [e]) = l ++ [e]
    have hl : ((a :: l) ++ [e]).length - cap = 1 := by
      simp only [List.length_append, List.length_cons, List.length_nil]
      omega
    rw [hl]
    rfl

theorem pushCapped_below_cap {α : Type} (cap : Nat) (log : List α) (e : α)
    (h : log.length < cap) : pushCapped cap log e = log ++ [e] := by
  have hl : ((log) ++ [e]).length - cap = 0 := by
    simp only [List.length_append, List.length_cons, List.length_nil]
    omega
  show List.drop ((log ++ [e]).length - cap) (log ++ [e]) = log ++ [e]
  rw [hl]
  exact List.drop_zero _

/-- Claim C7: the capped appends used by the chat-message and terminal-output
handlers never let the logs exceed their caps (the length after an append is
min of length+1 and the cap), and appending at the cap keeps exactly cap
entries, evicting the oldest: a chat append at 100 yields the tail of the old
log plus the new message, and a terminal append at 50 behaves likewise. -/
theorem C7_log_bounding (doc : RoomStateDoc) (m : ChatMessage) (t : TerminalEntry)
    (hc : doc.chatMessages.length = 100) (ht : doc.terminalHistory.length = 50) :
    (applyDb doc (DbUpdate.pushChatCapped m)).chatMessages
        = doc.chatMessages.tail ++ [m]
  ∧ (applyDb doc (DbUpdate.pushChatCapped m)).chatMessages.length = 100
  ∧ (applyDb doc (DbUpdate.pushTerminalCapped t)).terminalHistory
        = doc.terminalHistory.tail ++ [t]
  ∧ (applyDb doc (DbUpdate.pushTerminalCapped t)).terminalHistory.length = 50
  ∧ (∀ (log : List ChatMessage) (e : ChatMessage) (cap : Nat),
        (pushCapped cap log e).length = min (log.length + 1) cap) := by
  refine ⟨?_, ?_, ?_, ?_, fun log e cap => pushCapped_length cap log e⟩
  · exact pushCapped_at_cap 100 doc.chatMessages m hc (by omega)
  · show (pushCapped 100 doc.chatMessages m).length = 100
    rw [pushCapped_length, hc]
    omega
  · exact pushCapped_at_cap 50 doc.terminalHistory t ht (by omega)
  · show (pushCapped 50 doc.terminalHistory t).length = 50
    rw [pushCapped_length, ht]
    omega

/-- Witness for C7 at doc100, whose logs sit exactly at both caps. -/
theorem C7_log_bounding_witness :
    (applyDb doc100 (DbUpdate.pushChatCapped m0)).chatMessages.length = 100
  ∧ (applyDb doc100 (DbUpdate.pushTerminalCapped t0)).terminalHistory.length = 50 :=
  ⟨(C7_log_bounding doc100 m0 t0 (by simp [doc100]) (by simp [doc100])).2.1,
   (C7_log_bounding doc100 m0 t0 (by simp [doc100]) (by simp [doc100])).2.2.2.1⟩

/-- Claim C8 as stated is false on the code in one respect: the default
snapshot created for a first join does not contain an empty source file — the
single created file is pre-filled with a fixed welcome stub. -/
theorem C8_default_snapshot_counterexample :
    (defaultRoomState "r" 0).codeFiles.map CodeFile.content
      = ["# Welcome to CodeBuddy!\n# Start coding here...\n\nprint(\"Hello, World!\")\n"]
  ∧ (defaultRoomState "r" 0).codeFiles.map CodeFile.content ≠ [""] :=
  ⟨rfl, by decide⟩

/-- Claim C8 amended: a join to a room with no stored snapshot creates the
default snapshot holding exactly one source file (pre-filled with the
non-empty welcome stub rather than empty), exactly one canvas surface whose
scene holds no objects, and empty chat and execution logs; getOrCreate
returns the stored document unchanged when one exists; and the join handler
emits exactly two events — the atomic room-state payload to the joining
socket only (its sole recipient is the joiner) and a user-joined
notification to the other members. -/
theorem C8_bootstrap_amended (s : Srv) (now : Nat) (rid : RoomId) (sid : SocketId)
    (uid uname : String) (g : Bool) :
    (defaultRoomState rid now).codeFiles.length = 1
  ∧ (∀ f ∈ (defaultRoomState rid now).codeFiles, f.content ≠ "")
  ∧ (defaultRoomState rid now).canvasFiles.length = 1
  ∧ (∀ c ∈ (defaultRoomState rid now).canvasFiles, c.fabricJSON.objects = [])
  ∧ (defaultRoomState rid now).chatMessages = []
  ∧ (defaultRoomState rid now).terminalHistory = []
  ∧ getOrCreate none rid now = defaultRoomState rid now
  ∧ (∀ doc, getOrCreate (some doc) rid now = doc)
  ∧ (joinRoom s none now rid sid uid uname g).2.map Emission.target
      = [Target.socket sid, Target.roomExcept rid sid]
  ∧ (joinRoom s none now rid sid uid uname g).2.map Emission.event
      = ["room-state", "user-joined"]
  ∧ (∀ members : List SocketId, recipients members (Target.socket sid) = [sid]) := by
  refine ⟨rfl, ?_, rfl, ?_, rfl, rfl, rfl, fun doc => rfl, rfl, rfl, fun members => rfl⟩
  · intro f hf
    simp [defaultRoomState] at hf
    rw [hf]
    show "# Welcome to CodeBuddy!\n# Start coding here...\n\nprint(\"Hello, World!\")\n" ≠ ""
    decide
  · intro c hc
    simp [defaultRoomState] at hc
    rw [hc]

/-- Witness for C8 amended: the default file of room r at clock 0 has
non-empty content, and the room-state emission to socket a reaches only a. -/
theorem C8_bootstrap_amended_witness :
    ({ id := "0", filename := "main.py", language := "python",
       content := "# Welcome to CodeBuddy!\n# Start coding here...\n\nprint(\"Hello, World!\")\n",
       groupId := none, lastModified := 0 } : CodeFile).content ≠ ""
  ∧ recipients ["a", "b"] (Target.socket "a") = ["a"] :=
  ⟨(C8_bootstrap_amended { roomUsers := [], roomHosts := [], roomSettings := [] }
      0 "r" "a" "ua" "alice" false).2.1 _ (by decide),
   (C8_bootstrap_amended { roomUsers := [], roomHosts := [], roomSettings := [] }
      0 "r" "a" "ua" "alice" false).2.2.2.2.2.2.2.2.2.2 ["a", "b"]⟩

/-- Claim C9: when a database write inside the flush timer callback throws
(modelled as failing at the k-th pending file), no emission reaches any
client, the pendingSaves entry of the room is kept rather than dropped, and
the next flush cycle durably writes every pending entry of the room; the
successful flush path emits nothing either; and the code-change broadcast is
independent of the coalescer state, so a failing persistence layer never
blocks live client-to-client sync. -/
theorem C9_flush_error_retry :
    (∀ (st : SaveState) (rid : RoomId) (k : Nat),
        (flushTimer st rid (some k)).1.pendingSaves = st.pendingSaves)
  ∧ (∀ (st : SaveState) (rid : RoomId) (k : Nat), (flushTimer st rid (some k)).2.2 = [])
  ∧ (∀ (st : SaveState) (rid : RoomId), (flushTimer st rid none).2.2 = [])
  ∧ (∀ (st : SaveState) (rid : RoomId) (k : Nat),
        (flushTimer (flushTimer st rid (some k)).1 rid none).2.1
          = (mapGet st.pendingSaves rid).getD [])
  ∧ (∀ (rid : RoomId) (sender : SocketId) (fid content : String) (st st2 : SaveState),
        (codeChangeHandler (some rid) sender fid content st).1
          = (codeChangeHandler (some rid) sender fid content st2).1) :=
  ⟨fun st rid k => rfl, fun st rid k => rfl, fun st rid => rfl,
   fun st rid k => rfl, fun rid sender fid content st st2 => rfl⟩

/-- Claim C10: the chat-message handler takes no account of the chatDisabled
room setting (the source handler never reads roomSettings, which is why the
modelled handler does not even consume the registry); after the host disables
chat through host-toggle-chat the rooms chatDisabled flag is true, yet any
members chat-message is still broadcast to the whole room and appended
(capped at 100) to the persisted chat log, exactly as with chat enabled;
below the cap the append keeps every older message and adds the new one at
the end. -/
theorem C10_chat_ignores_toggle (s : Srv) (rid : RoomId) (hst sender : SocketId)
    (uid uname msg mid : String) (ts : Nat)
    (hh : isHost s (some rid) hst = true)
    (hset : (mapGet s.roomSettings rid).isSome = true) :
    mapGet ((hostToggleChat s (some rid) hst true).1).roomSettings rid = some true
  ∧ chatMessageHandler (some rid) sender uid uname msg mid ts
      = ([{ target := Target.roomAll rid, event := "chat-message",
            payload := Payload.chat { id := mid, userId := uid, username := uname,
                                      message := msg, timestamp := ts } }],
         [DbUpdate.pushChatCapped { id := mid, userId := uid, username := uname,
                                    message := msg, timestamp := ts }])
  ∧ (∀ (doc : RoomStateDoc) (m : ChatMessage), doc.chatMessages.length < 100 →
        (applyDb doc (DbUpdate.pushChatCapped m)).chatMessages = doc.chatMessages ++ [m]) := by
  refine ⟨?_, rfl, ?_⟩
  · simp [hostToggleChat, hh, hset, mapGet_set_self]
  · intro doc m h
    exact pushCapped_below_cap 100 doc.chatMessages m h

/-- Witness for C10 in srv2 (host a, settings entry present): after a
disables chat, the flag for room r is true, and member b sending a message
still produces the full-room broadcast and the capped append. -/
theorem C10_chat_ignores_toggle_witness :
    mapGet ((hostToggleChat srv2 (some "r") "a" true).1).roomSettings "r" = some true
  ∧ chatMessageHandler (some "r") "b" "ub" "bob" "hello" "m2" 5
      = ([{ target := Target.roomAll "r", event := "chat-message",
            payload := Payload.chat { id := "m2", userId := "ub", username := "bob",
                                      message := "hello", timestamp := 5 } }],
         [DbUpdate.pushChatCapped { id := "m2", userId := "ub", username := "bob",
                                    message := "hello", timestamp := 5 }]) :=
  ⟨(C10_chat_ignores_toggle srv2 "r" "a" "b" "ub" "bob" "hello" "m2" 5
      (by decide) (by decide)).1,
   (C10_chat_ignores_toggle srv2 "r" "a" "b" "ub" "bob" "hello" "m2" 5
      (by decide) (by decide)).2.1⟩

end CodeBuddy
